import Mathlib

/-!
Shallow embedding of the inferior-control core of the `sdb` debugger
(`src/src/process.cpp`), together with theorems checking the natural-language
specification against it.

The source file `process.cpp` is translated definition by definition.  The
class declarations it relies on (`process.hpp`, `breakpoint_site.hpp`,
`pipe.hpp`, the register file) are not part of the provided sources; where a
claim depends on them the corresponding definition is modelled from the
specification and marked `Modelled from the spec:` in its doc comment.

Machine integers are modelled as `Nat` with explicit `% 2^64` where u64
wrap-around matters.  The kernel/OS side (ptrace, waitpid, fork, inferior
memory) is modelled as an explicit oracle ("world") record supplying the
outcome of every system call; each operation returns the mutated process
value, the inferior memory, the list of system-call events it issued, and an
`Except` outcome.  Because the C++ mutates fields in place and raises
exceptions, every modelled operation returns the process as mutated up to the
point of a raise, mirroring the persistence of member writes across a throw.
-/

namespace Sdb

/-- Size of the u64 value space (2^64); virtual addresses and `rip` live
below it. -/
def U64 : Nat := 18446744073709551616

/-- The u64 wrap-around decrement: `virt_addr - 1` on a 64-bit unsigned
address (0 wraps to 2^64 − 1). -/
def u64_dec (x : Nat) : Nat := if x = 0 then U64 - 1 else x - 1

/-- Linux signal number for SIGTRAP on x86-64. -/
def SIGTRAP : Nat := 5

/-- Linux signal number for SIGKILL. -/
def SIGKILL : Nat := 9

/-- Linux signal number for SIGCONT on x86-64. -/
def SIGCONT : Nat := 18

/-- Linux signal number for SIGSTOP on x86-64. -/
def SIGSTOP : Nat := 19

/-- The x86-64 software-breakpoint trap byte (`int3`). -/
def TRAP_BYTE : Nat := 0xCC

/-- The four process states of `sdb::process_state`. -/
inductive process_state where
  | stopped
  | running
  | exited
  | terminated
deriving DecidableEq, Repr

/-- A decoded wait status: `sdb::stop_reason` (a `process_state` plus an
8-bit `info`). -/
structure stop_reason where
  reason : process_state
  info : Nat
deriving DecidableEq, Repr

/-! ## Wait-status decoding

The glibc `bits/waitstatus.h` macros used by `stop_reason`'s constructor,
written out over `Nat`.  `WIFSIGNALED` keeps the source's signed-char cast
and arithmetic right shift, carried out on `Int` (floor division by 2 is the
arithmetic shift). -/

/-- Glibc `WIFEXITED`: `(status & 0x7f) == 0`. -/
def WIFEXITED (status : Nat) : Bool := status % 128 == 0

/-- Glibc `WEXITSTATUS`: `(status >> 8) & 0xff`. -/
def WEXITSTATUS (status : Nat) : Nat := (status / 256) % 256

/-- Glibc `WTERMSIG`: `status & 0x7f`. -/
def WTERMSIG (status : Nat) : Nat := status % 128

/-- Glibc `WIFSIGNALED`: `((signed char)(((status & 0x7f) + 1) >> 1)) > 0`.
The signed-char cast maps 128 to −128; `>> 1` is the arithmetic shift,
i.e. floor division by 2. -/
def WIFSIGNALED (status : Nat) : Bool :=
  let v : Int := (status % 128 : Nat) + 1
  let sc : Int := if v < 128 then v else v - 256
  decide (0 < Int.fdiv sc 2)

/-- Glibc `WIFSTOPPED`: `(status & 0xff) == 0x7f`. -/
def WIFSTOPPED (status : Nat) : Bool := status % 256 == 127

/-- Glibc `WSTOPSIG`: `(status >> 8) & 0xff`. -/
def WSTOPSIG (status : Nat) : Nat := (status / 256) % 256

/-- The `sdb::stop_reason::stop_reason(int wait_status)` constructor
(process.cpp, lines 109–120).  The C++ leaves both members uninitialized
when no branch of the `if`/`else if` chain fires; the indeterminate initial
contents of the two fields are modelled as the extra parameters `r0` and
`i0`. -/
def mkStopReason (wait_status : Nat) (r0 : process_state) (i0 : Nat) : stop_reason :=
  if WIFEXITED wait_status then ⟨.exited, WEXITSTATUS wait_status⟩
  else if WIFSIGNALED wait_status then ⟨.terminated, WTERMSIG wait_status⟩
  else if WIFSTOPPED wait_status then ⟨.stopped, WSTOPSIG wait_status⟩
  else ⟨r0, i0⟩

/-! ## Error channel

The source raises `sdb::error` via the static helpers `error::send(msg)` and
`error::send_errno(msg)` (the latter appends the OS errno text).  Only the
message distinguishes errors in `process.cpp`. -/

/-- An `sdb::error` carrier: `send` for plain messages, `send_errno` for
messages to which the OS errno string is appended. -/
inductive SdbError where
  | send (msg : String)
  | send_errno (msg : String)
deriving DecidableEq, Repr

/-- The error kinds named by the specification, §7. -/
inductive ErrorKind where
  | fork_failed
  | exec_failed
  | trace_me_failed
  | attach_failed
  | invalid_pid
  | waitpid_failed
  | resume_failed
  | singlestep_failed
  | register_read_failed
  | duplicate_breakpoint
  | not_stopped
  | other
deriving DecidableEq, Repr

/-- The message `create_breakpoint_site` raises for an already-present
address (process.cpp, line 172); the spec §7 calls this error kind
`duplicate_breakpoint`. -/
def duplicate_breakpoint_msg (a : Nat) : String :=
  "Breakpoint site already created at address " ++ toString a

/-- Modelled from the spec: §7's classification of the error messages raised
in `process.cpp` into the spec's error kinds.  Each literal below is a
message the source raises; a `send` whose text is neither the attach
messages nor a duplicate-breakpoint message is the child-failure message
re-raised by `launch` (the `exec_failed` family). -/
def errorKind : SdbError → ErrorKind
  | .send m =>
      if ("Breakpoint site already created").data.isPrefixOf m.data then
        .duplicate_breakpoint
      else if m = "Invalid PID" then .invalid_pid
      else .exec_failed
  | .send_errno m =>
      if m = "fork failed" then .fork_failed
      else if m = "Could not attach" then .attach_failed
      else if m = "waitpid failed" then .waitpid_failed
      else if m = "Could not resume" then .resume_failed
      else if m = "Failedto sigle step" ∨ m = "Could not single step" then .singlestep_failed
      else if m = "Could not read GPR registers" ∨ m = "Cound not read debug register" then
        .register_read_failed
      else .other

/-! ## Register mirror

The register file lives in headers that are not part of the provided
sources.  Only `rip` is ever inspected by `process.cpp` (through
`get_pc`/`set_pc`); the remaining contents of each bank are abstracted as
opaque `Nat` blobs, and the eight debug registers as a list (written
slot-by-slot by `read_all_registers`). -/

/-- The general-purpose register struct (`user_regs_struct`): `rip` plus all
other fields abstracted into one blob. -/
structure UserRegs where
  rip : Nat
  rest : Nat
deriving DecidableEq, Repr

/-- The in-memory mirror of the inferior's user area: GPR struct, x87/SSE
struct (`i387`, abstracted), and the 8-entry debug register array. -/
structure RegisterBank where
  regs : UserRegs
  i387 : Nat
  u_debugreg : List Nat
deriving DecidableEq, Repr

/-! ## Breakpoint sites and their table

`breakpoint_site` and `breakpoint_site_table` are declared in headers that
are not part of the provided sources; they are modelled from the spec
(§3, §4.3, §4.4) and from their uses in `process.cpp`. -/

/-- Modelled from the spec: a software-breakpoint site
`{ id, address, enabled, saved_byte }` (§3). -/
structure breakpoint_site where
  id : Nat
  address : Nat
  isEnabled : Bool
  savedByte : Nat
deriving DecidableEq, Repr

/-- Inferior memory, one byte per virtual address. -/
def Mem : Type := Nat → Nat

/-- Modelled from the spec: `breakpoint_site::enable` (§4.4).  If already
enabled, a no-op; otherwise save the current byte at `address`, write the
trap byte there, and mark enabled. -/
def breakpoint_site.enable (s : breakpoint_site) (m : Mem) : breakpoint_site × Mem :=
  if s.isEnabled then (s, m)
  else ({ s with savedByte := m s.address, isEnabled := true },
        fun a => if a = s.address then TRAP_BYTE else m a)

/-- Modelled from the spec: `breakpoint_site::disable` (§4.4).  If already
disabled, a no-op; otherwise restore `saved_byte` and mark disabled. -/
def breakpoint_site.disable (s : breakpoint_site) (m : Mem) : breakpoint_site × Mem :=
  if s.isEnabled then
    ({ s with isEnabled := false },
     fun a => if a = s.address then s.savedByte else m a)
  else (s, m)

/-- Modelled from the spec: `breakpoint_site_table::contains_address` (§4.3).
The table is modelled as the list of sites in insertion order. -/
def contains_address (sites : List breakpoint_site) (a : Nat) : Bool :=
  sites.any (fun s => s.address == a)

/-- Modelled from the spec: the specialized predicate
`breakpoint_site_table::enabled_stoppoint_at_address` (§4.3): is there an
enabled site at this address. -/
def enabled_stoppoint_at_address (sites : List breakpoint_site) (a : Nat) : Bool :=
  sites.any (fun s => s.address == a && s.isEnabled)

/-- Modelled from the spec: `get_by_address(a).disable()` — disable the site
at address `a` (the table holds at most one), threading inferior memory. -/
def disable_at : List breakpoint_site → Mem → Nat → List breakpoint_site × Mem
  | [], m, _ => ([], m)
  | s :: rest, m, a =>
      if s.address = a then ((s.disable m).1 :: rest, (s.disable m).2)
      else (s :: (disable_at rest m a).1, (disable_at rest m a).2)

/-- Modelled from the spec: `get_by_address(a).enable()` — enable the site at
address `a`, threading inferior memory. -/
def enable_at : List breakpoint_site → Mem → Nat → List breakpoint_site × Mem
  | [], m, _ => ([], m)
  | s :: rest, m, a =>
      if s.address = a then ((s.enable m).1 :: rest, (s.enable m).2)
      else (s :: (enable_at rest m a).1, (enable_at rest m a).2)

/-! ## The process -/

/-- The `sdb::process` object: pid, ownership flags, state machine state,
register mirror, breakpoint site table (as a list in insertion order) and
the monotonic breakpoint-id counter. -/
structure process where
  pid : Nat
  terminate_on_end : Bool
  is_attached : Bool
  state : process_state
  regs : RegisterBank
  sites : List breakpoint_site
  nextId : Nat
deriving DecidableEq, Repr

/-- Modelled from the spec: `get_pc()`, the convenience read of the `rip`
mirror (§6). -/
def process.get_pc (p : process) : Nat := p.regs.regs.rip

/-- Modelled from the spec: `set_pc(v)`, the convenience write of the `rip`
register (§6); the mirror is updated (and the GPR bank flushed to the
kernel, recorded as an event by the caller). -/
def process.set_pc (p : process) (v : Nat) : process :=
  { p with regs := { p.regs with regs := { p.regs.regs with rip := v } } }

/-- A system call issued by the tracer, as observed at the OS boundary.
Register-file traffic inside `read_all_registers`/`set_pc` is summarized as
single events. -/
inductive Event where
  | forkCall
  | waitpidCall
  | singleStep
  | ptraceCont
  | ptraceAttach (pid : Nat)
  | ptraceDetach (pid : Nat)
  | killSig (pid : Nat) (sig : Nat)
  | disableSite (addr : Nat)
  | enableSite (addr : Nat)
  | refreshRegs
  | ptraceSetRegs
deriving DecidableEq, Repr

/-- Oracle for `read_all_registers`: whether `PTRACE_GETREGS` and
`PTRACE_GETFPREGS` succeed, whether the `PTRACE_PEEKUSER` of debug register
`i` leaves `errno` clear, and the kernel-side register image the calls
return. -/
structure RegReadWorld where
  getregsOk : Bool
  getfpregsOk : Bool
  drOk : Nat → Bool
  kernel : RegisterBank

/-- All register reads in this world succeed. -/
def regsAllOk (w : RegReadWorld) : Prop :=
  w.getregsOk = true ∧ w.getfpregsOk = true ∧ ∀ i < 8, w.drOk i = true

instance (w : RegReadWorld) : Decidable (regsAllOk w) := by
  unfold regsAllOk; infer_instance

/-- The debug-register loop of `read_all_registers` (process.cpp, lines
145–152): for `i = 0..7`, clear errno, peek user-area, fail if errno is set,
else store the value in slot `i` of the mirror.  The first argument counts
the remaining iterations. -/
def drLoop (w : RegReadWorld) : Nat → Nat → RegisterBank →
    RegisterBank × Except SdbError Unit
  | 0, _, bank => (bank, .ok ())
  | n + 1, i, bank =>
      if w.drOk i then
        drLoop w n (i + 1)
          { bank with u_debugreg := bank.u_debugreg.set i (w.kernel.u_debugreg.getD i 0) }
      else (bank, .error (.send_errno "Cound not read debug register"))

/-- Model of `sdb::process::read_all_registers` (process.cpp, lines 138–153): one
`PTRACE_GETREGS`, one `PTRACE_GETFPREGS`, then the eight debug-register
peeks.  Mutations performed before a failing call persist. -/
def process.read_all_registers (p : process) (w : RegReadWorld) :
    process × Except SdbError Unit :=
  if !w.getregsOk then (p, .error (.send_errno "Could not read GPR registers"))
  else
    let p := { p with regs := { p.regs with regs := w.kernel.regs } }
    if !w.getfpregsOk then (p, .error (.send_errno "Could not read GPR registers"))
    else
      let p := { p with regs := { p.regs with i387 := w.kernel.i387 } }
      let br := drLoop w 8 0 p.regs
      ({ p with regs := br.1 }, br.2)

/-- Oracle for one `wait_on_signal` call: the `waitpid` outcome (`none` for
failure), the register-read world used if the stop is observed while
attached, and the indeterminate initial contents of the `stop_reason`
locals. -/
structure WaitWorld where
  waitRes : Option Nat
  regWorld : RegReadWorld
  junkReason : process_state
  junkInfo : Nat

/-- Result of an operation that may mutate the process before raising. -/
structure WaitResult where
  proc : process
  events : List Event
  res : Except SdbError stop_reason

/-- Model of `sdb::process::wait_on_signal` (process.cpp, lines 121–137): block in
`waitpid`, decode into a `stop_reason`, assign `state_`; if attached and
stopped, refresh the register mirror and, when the stop signal is `SIGTRAP`
and `pc − 1` has an enabled breakpoint site, rewind the program counter to
`pc − 1`. -/
def process.wait_on_signal (p : process) (w : WaitWorld) : WaitResult :=
  match w.waitRes with
  | none => ⟨p, [.waitpidCall], .error (.send_errno "waitpid failed")⟩
  | some ws =>
    let reason := mkStopReason ws w.junkReason w.junkInfo
    let p1 := { p with state := reason.reason }
    if p1.is_attached = true ∧ p1.state = .stopped then
      let rr := p1.read_all_registers w.regWorld
      match rr.2 with
      | .error e => ⟨rr.1, [.waitpidCall, .refreshRegs], .error e⟩
      | .ok _ =>
        let p2 := rr.1
        let instr_begin := u64_dec p2.get_pc
        if reason.info = SIGTRAP ∧ enabled_stoppoint_at_address p2.sites instr_begin = true then
          ⟨p2.set_pc instr_begin, [.waitpidCall, .refreshRegs, .ptraceSetRegs], .ok reason⟩
        else ⟨p2, [.waitpidCall, .refreshRegs], .ok reason⟩
    else ⟨p1, [.waitpidCall], .ok reason⟩

/-- Result of an operation threading process, inferior memory, the syscall
event list, and an outcome. -/
structure EffResult (α : Type) where
  proc : process
  mem : Mem
  events : List Event
  res : Except SdbError α

/-- Oracle for one `resume` call: success of `PTRACE_SINGLESTEP`, outcome of
the intermediate raw `waitpid` (`none` for failure), success of
`PTRACE_CONT`. -/
structure ResumeWorld where
  singlestepOk : Bool
  stepWait : Option Nat
  contOk : Bool
deriving DecidableEq, Repr

/-- Model of `sdb::process::resume` (process.cpp, lines 89–108): if an enabled
breakpoint site sits at the program counter, disable it, single-step, wait
with a raw `waitpid` whose status is read into a local and never used, and
re-enable the site; then issue `PTRACE_CONT` and set the state to
`running`.  There is no check of the current state. -/
def process.resume (p : process) (m : Mem) (w : ResumeWorld) : EffResult Unit :=
  let pc := p.get_pc
  if enabled_stoppoint_at_address p.sites pc = true then
    let d := disable_at p.sites m pc
    let p1 := { p with sites := d.1 }
    if !w.singlestepOk then
      ⟨p1, d.2, [.disableSite pc, .singleStep], .error (.send_errno "Failedto sigle step")⟩
    else
      match w.stepWait with
      | none =>
          ⟨p1, d.2, [.disableSite pc, .singleStep, .waitpidCall],
           .error (.send_errno "waitpid failed")⟩
      | some _ =>
          let en := enable_at p1.sites d.2 pc
          let p2 := { p1 with sites := en.1 }
          if !w.contOk then
            ⟨p2, en.2, [.disableSite pc, .singleStep, .waitpidCall, .enableSite pc, .ptraceCont],
             .error (.send_errno "Could not resume")⟩
          else
            ⟨{ p2 with state := .running }, en.2,
             [.disableSite pc, .singleStep, .waitpidCall, .enableSite pc, .ptraceCont], .ok ()⟩
  else
    if !w.contOk then ⟨p, m, [.ptraceCont], .error (.send_errno "Could not resume")⟩
    else ⟨{ p with state := .running }, m, [.ptraceCont], .ok ()⟩

/-- Oracle for one `step_instruction` call: success of `PTRACE_SINGLESTEP`
and the world for the inner `wait_on_signal`. -/
structure StepWorld where
  singlestepOk : Bool
  waitW : WaitWorld

/-- Model of `sdb::process::step_instruction` (process.cpp, lines 176–192): remember
and disable an enabled site at the program counter, single-step, wait via
`wait_on_signal` (which decodes the status and refreshes state and
registers), then re-enable the remembered site and return the reason.  The
`to_reenable` optional of the source is compiled into the two branches of
the initial breakpoint test. -/
def process.step_instruction (p : process) (m : Mem) (w : StepWorld) : EffResult stop_reason :=
  let pc := p.get_pc
  if enabled_stoppoint_at_address p.sites pc = true then
    let d := disable_at p.sites m pc
    let p1 := { p with sites := d.1 }
    if !w.singlestepOk then
      ⟨p1, d.2, [.disableSite pc, .singleStep], .error (.send_errno "Could not single step")⟩
    else
      let wr := p1.wait_on_signal w.waitW
      match wr.res with
      | .error e => ⟨wr.proc, d.2, [.disableSite pc, .singleStep] ++ wr.events, .error e⟩
      | .ok reason =>
          let en := enable_at wr.proc.sites d.2 pc
          ⟨{ wr.proc with sites := en.1 }, en.2,
           [.disableSite pc, .singleStep] ++ wr.events ++ [.enableSite pc], .ok reason⟩
  else
    if !w.singlestepOk then
      ⟨p, m, [.singleStep], .error (.send_errno "Could not single step")⟩
    else
      let wr := p.wait_on_signal w.waitW
      match wr.res with
      | .error e => ⟨wr.proc, m, [.singleStep] ++ wr.events, .error e⟩
      | .ok reason => ⟨wr.proc, m, [.singleStep] ++ wr.events, .ok reason⟩

/-- Model of `sdb::process::create_breakpoint_site` (process.cpp, lines 170–175):
reject an address already present in the table, otherwise push a new site
(id from the monotonic counter, initially disabled; the counter and the
fresh site's initial fields are modelled from the spec, §4.3/§3). -/
def process.create_breakpoint_site (p : process) (address : Nat) :
    process × Except SdbError breakpoint_site :=
  if contains_address p.sites address = true then
    (p, .error (.send (duplicate_breakpoint_msg address)))
  else
    let site : breakpoint_site := ⟨p.nextId, address, false, 0⟩
    ({ p with sites := p.sites ++ [site], nextId := p.nextId + 1 }, .ok site)

/-- Model of `sdb::process::~process` (process.cpp, lines 72–88), as the ordered list
of system calls it issues: nothing for pid 0; otherwise, when attached,
SIGSTOP+reap if running, then detach, then SIGCONT; finally, when
`terminate_on_end_`, SIGKILL+reap. -/
def process.destroy (p : process) : List Event :=
  if p.pid ≠ 0 then
    (if p.is_attached then
      (if p.state = .running then [Event.killSig p.pid SIGSTOP, Event.waitpidCall] else [])
        ++ [Event.ptraceDetach p.pid, Event.killSig p.pid SIGCONT]
     else [])
    ++ (if p.terminate_on_end then [Event.killSig p.pid SIGKILL, Event.waitpidCall] else [])
  else []

/-- Oracle for one `attach` call: success of `PTRACE_ATTACH`, the
indeterminate initial field values of the freshly constructed `process`
(its constructor is in a header outside the provided sources), and the
world for the initial `wait_on_signal`. -/
structure AttachWorld where
  attachOk : Bool
  initState : process_state
  initBank : RegisterBank
  initNextId : Nat
  waitW : WaitWorld

/-- The process object `attach` constructs before its initial wait:
`process(pid, /*terminate_on_end=*/false, /*attached=*/true)` (process.cpp,
line 68); the state, register mirror and id counter start at the
constructor's indeterminate initial values, supplied by the world. -/
def attach_initial (pid : Nat) (w : AttachWorld) : process :=
  ⟨pid, false, true, w.initState, w.initBank, [], w.initNextId⟩

/-- Model of `sdb::process::attach` (process.cpp, lines 61–71): reject pid 0 before
any ptrace call, issue `PTRACE_ATTACH`, construct the process with
`terminate_on_end = false` and `is_attached = true`, and consume the
initial stop with `wait_on_signal`. -/
def process.attach (pid : Nat) (w : AttachWorld) : List Event × Except SdbError process :=
  if pid = 0 then ([], .error (.send "Invalid PID"))
  else if !w.attachOk then
    ([.ptraceAttach pid], .error (.send_errno "Could not attach"))
  else
    let wr := (attach_initial pid w).wait_on_signal w.waitW
    ([Event.ptraceAttach pid] ++ wr.events,
     match wr.res with
     | .error e => .error e
     | .ok _ => .ok wr.proc)

/-! ## Launch -/

/-- Oracle for the child side of `launch`: success of `dup2`, of
`PTRACE_TRACEME` and of `execlp`, and the `strerror(errno)` text at each
potential failure point. -/
structure ChildWorld where
  dup2Ok : Bool
  tracemeOk : Bool
  execOk : Bool
  dup2Errno : String
  tracemeErrno : String
  execErrno : String
deriving DecidableEq, Repr

/-- What the forked child ends up doing: replaced by the target program
(`execed` — the pipe's write end closes on exec, so the parent reads EOF),
or failed, having written a message to the pipe and exited with the given
status byte. -/
inductive child_outcome where
  | execed
  | failed (pipeContent : String) (exitCode : Nat)
deriving DecidableEq, Repr

/-- The child branch of `launch` (process.cpp, lines 31–45) together with
`exit_with_perror` (lines 17–23): on the first failing call, write
`prefix ++ ": " ++ strerror(errno)` to the pipe and `exit(-1)` (status byte
255). -/
def child_side (debug : Bool) (stdout_replacement : Option Nat) (w : ChildWorld) :
    child_outcome :=
  if stdout_replacement.isSome ∧ w.dup2Ok = false then
    .failed ("stdout replacement failed: " ++ w.dup2Errno) 255
  else if debug = true ∧ w.tracemeOk = false then
    .failed ("Tracing failed: " ++ w.tracemeErrno) 255
  else if w.execOk = false then
    .failed ("exec failed: " ++ w.execErrno) 255
  else .execed

/-- Oracle for one `launch` call: success of `fork`, the child's pid, the
child-side world, the indeterminate initial fields of the constructed
`process`, and the world for the initial `wait_on_signal` issued when
`debug` is set. -/
structure LaunchWorld where
  forkOk : Bool
  childPid : Nat
  child : ChildWorld
  initState : process_state
  initBank : RegisterBank
  initNextId : Nat
  waitW : WaitWorld

/-- The process object `launch` constructs after a successful pipe read:
`process(pid, /*terminate_on_end=*/true, debug)` (process.cpp, line 54). -/
def launch_initial (debug : Bool) (w : LaunchWorld) : process :=
  ⟨w.childPid, true, debug, w.initState, w.initBank, [], w.initNextId⟩

/-- Model of `sdb::process::launch` (process.cpp, lines 24–59): create a
close-on-exec pipe, fork, run the child branch; in the parent, read the
pipe to EOF — non-empty content means the child failed, so reap it and
re-raise its message; empty content means the exec succeeded, so construct
the process with `terminate_on_end = true`, `is_attached = debug`, and when
`debug` consume the initial stop with `wait_on_signal`. -/
def process.launch (_path : String) (debug : Bool) (stdout_replacement : Option Nat)
    (w : LaunchWorld) : List Event × Except SdbError process :=
  if !w.forkOk then ([.forkCall], .error (.send_errno "fork failed"))
  else
    let data : String :=
      match child_side debug stdout_replacement w.child with
      | .execed => ""
      | .failed msg _ => msg
    if data.length > 0 then
      ([.forkCall, .waitpidCall], .error (.send data))
    else
      if debug then
        let wr := (launch_initial debug w).wait_on_signal w.waitW
        ([Event.forkCall] ++ wr.events,
         match wr.res with
         | .error e => .error e
         | .ok _ => .ok wr.proc)
      else ([.forkCall], .ok (launch_initial debug w))

/-! ## Concrete fixtures

Sample values used to instantiate theorems at concrete inputs. -/

/-- An all-zero register bank. -/
def sampleBank : RegisterBank := ⟨⟨0, 0⟩, 0, [0, 0, 0, 0, 0, 0, 0, 0]⟩

/-- A kernel-side register image whose `rip` is 100. -/
def sampleKernelBank : RegisterBank := ⟨⟨100, 7⟩, 3, [1, 2, 3, 4, 5, 6, 7, 8]⟩

/-- A register-read world in which every ptrace register call succeeds. -/
def sampleRegWorld : RegReadWorld := ⟨true, true, fun _ => true, sampleKernelBank⟩

/-- Inferior memory filled with `nop` bytes. -/
def mem0 : Mem := fun _ => 0x90

/-- An enabled breakpoint site at address 99. -/
def sampleSite : breakpoint_site := ⟨1, 99, true, 0x55⟩

/-- An attached, stopped process whose pc is 99, with an enabled site there. -/
def sampleProc : process := ⟨42, false, true, .stopped, ⟨⟨99, 7⟩, 3, [0, 0, 0, 0, 0, 0, 0, 0]⟩, [sampleSite], 2⟩

/-- A process whose inferior has already exited. -/
def exitedProc : process := ⟨42, true, true, .exited, sampleBank, [], 5⟩

/-! ## Helper lemmas about the wait-status macros -/

/-- The macro `WIFSIGNALED` holds exactly on the low-7-bit values 1..126 (0 is a normal
exit, 127 a stop). -/
theorem wifsignaled_char (s : Nat) :
    WIFSIGNALED s = true ↔ 1 ≤ s % 128 ∧ s % 128 ≤ 126 := by
  have key : ∀ r : Fin 128, WIFSIGNALED r.1 = decide (1 ≤ r.1 ∧ r.1 ≤ 126) := by decide
  have h : s % 128 < 128 := Nat.mod_lt _ (by norm_num)
  have h1 : WIFSIGNALED s = WIFSIGNALED (s % 128) := by
    unfold WIFSIGNALED
    rw [Nat.mod_mod_of_dvd s (dvd_refl 128)]
  rw [h1, key ⟨s % 128, h⟩, decide_eq_true_iff]

theorem wifexited_iff (s : Nat) : WIFEXITED s = true ↔ s % 128 = 0 := by
  unfold WIFEXITED; exact beq_iff_eq

theorem wifstopped_iff (s : Nat) : WIFSTOPPED s = true ↔ s % 256 = 127 := by
  unfold WIFSTOPPED; exact beq_iff_eq

theorem wifstopped_mod128 (s : Nat) (h : WIFSTOPPED s = true) : s % 128 = 127 := by
  rw [wifstopped_iff] at h
  have : s % 256 % 128 = s % 128 := Nat.mod_mod_of_dvd s (by norm_num)
  omega

theorem mkStopReason_exited (ws : Nat) (r0 : process_state) (i0 : Nat)
    (h : WIFEXITED ws = true) :
    mkStopReason ws r0 i0 = ⟨.exited, WEXITSTATUS ws⟩ := by
  unfold mkStopReason; rw [h]; simp

theorem mkStopReason_signaled (ws : Nat) (r0 : process_state) (i0 : Nat)
    (h : WIFSIGNALED ws = true) :
    mkStopReason ws r0 i0 = ⟨.terminated, WTERMSIG ws⟩ := by
  have hx : WIFEXITED ws = false := by
    rw [wifsignaled_char] at h
    simp only [WIFEXITED, beq_eq_false_iff_ne, ne_eq]
    omega
  unfold mkStopReason; rw [hx, h]; simp

theorem mkStopReason_stopped (ws : Nat) (r0 : process_state) (i0 : Nat)
    (h : WIFSTOPPED ws = true) :
    mkStopReason ws r0 i0 = ⟨.stopped, WSTOPSIG ws⟩ := by
  have h128 : ws % 128 = 127 := wifstopped_mod128 ws h
  have hx : WIFEXITED ws = false := by
    simp only [WIFEXITED, beq_eq_false_iff_ne, ne_eq]
    omega
  have hs : WIFSIGNALED ws = false := by
    rw [Bool.eq_false_iff, ne_eq, wifsignaled_char]
    omega
  unfold mkStopReason; rw [hx, hs, h]; simp

theorem mkStopReason_none (ws : Nat) (r0 : process_state) (i0 : Nat)
    (h1 : WIFEXITED ws = false) (h2 : WIFSIGNALED ws = false) (h3 : WIFSTOPPED ws = false) :
    mkStopReason ws r0 i0 = ⟨r0, i0⟩ := by
  unfold mkStopReason; rw [h1, h2, h3]; simp

/-! ## Helper lemmas about the register refresh -/

theorem drLoop_frame (w : RegReadWorld) :
    ∀ n i bank, (drLoop w n i bank).1.regs = bank.regs ∧ (drLoop w n i bank).1.i387 = bank.i387 := by
  intro n
  induction n with
  | zero => intro i bank; exact ⟨rfl, rfl⟩
  | succ n ih =>
      intro i bank
      unfold drLoop
      cases hw : w.drOk i with
      | true => simpa using ih (i + 1) _
      | false => simp [hw]

theorem drLoop_ok (w : RegReadWorld) :
    ∀ n i bank, (∀ j, i ≤ j → j < i + n → w.drOk j = true) →
      (drLoop w n i bank).2 = .ok () := by
  intro n
  induction n with
  | zero => intro i bank _; rfl
  | succ n ih =>
      intro i bank h
      have hi : w.drOk i = true := h i le_rfl (by omega)
      unfold drLoop
      rw [hi]
      simp only [if_true]
      exact ih (i + 1) _ (fun j h1 h2 => h j (by omega) (by omega))

/-- The call `read_all_registers` never touches anything but the register mirror. -/
theorem read_all_registers_frame (p : process) (w : RegReadWorld) :
    (p.read_all_registers w).1.sites = p.sites ∧
    (p.read_all_registers w).1.state = p.state ∧
    (p.read_all_registers w).1.is_attached = p.is_attached ∧
    (p.read_all_registers w).1.terminate_on_end = p.terminate_on_end ∧
    (p.read_all_registers w).1.pid = p.pid := by
  unfold process.read_all_registers
  cases h1 : w.getregsOk <;> cases h2 : w.getfpregsOk <;> simp [h1, h2]

/-- When every register call succeeds, `read_all_registers` succeeds and the
GPR mirror afterwards equals the kernel image. -/
theorem read_all_registers_ok (p : process) (w : RegReadWorld) (h : regsAllOk w) :
    (p.read_all_registers w).2 = .ok () ∧
    (p.read_all_registers w).1.regs.regs = w.kernel.regs := by
  obtain ⟨h1, h2, h3⟩ := h
  unfold process.read_all_registers
  simp only [h1, h2, Bool.not_true, Bool.false_eq_true, if_false]
  constructor
  · exact drLoop_ok w 8 0 _ (fun j _ hj => h3 j (by omega))
  · have := (drLoop_frame w 8 0
      { regs := w.kernel.regs, i387 := w.kernel.i387, u_debugreg := p.regs.u_debugreg }).1
    simpa using this

/-! ## Helper lemmas about wait_on_signal -/

/-- When `waitpid` itself fails, `wait_on_signal` raises before mutating
anything. -/
theorem wait_on_signal_none (p : process) (w : WaitWorld) (hw : w.waitRes = none) :
    (p.wait_on_signal w).res = .error (.send_errno "waitpid failed") ∧
    (p.wait_on_signal w).proc = p := by
  unfold process.wait_on_signal
  rw [hw]
  exact ⟨rfl, rfl⟩

set_option maxRecDepth 4000 in
/-- Characterization of `wait_on_signal` on a `waitpid` that yields a
status: the site table, the flags and the pid are untouched, the state
becomes the decoded reason, the `waitpid` call is among the events, and
when all register reads succeed the call returns the decoded reason. -/
theorem wait_on_signal_spec (p : process) (w : WaitWorld) (ws : Nat)
    (hw : w.waitRes = some ws) :
    (p.wait_on_signal w).proc.sites = p.sites ∧
    (p.wait_on_signal w).proc.is_attached = p.is_attached ∧
    (p.wait_on_signal w).proc.terminate_on_end = p.terminate_on_end ∧
    (p.wait_on_signal w).proc.pid = p.pid ∧
    (p.wait_on_signal w).proc.state = (mkStopReason ws w.junkReason w.junkInfo).reason ∧
    Event.waitpidCall ∈ (p.wait_on_signal w).events ∧
    (regsAllOk w.regWorld →
      (p.wait_on_signal w).res = .ok (mkStopReason ws w.junkReason w.junkInfo)) := by
  unfold process.wait_on_signal
  rw [hw]
  simp only []
  have h5 := read_all_registers_frame
    { p with state := (mkStopReason ws w.junkReason w.junkInfo).reason } w.regWorld
  have hok := fun h => (read_all_registers_ok
    { p with state := (mkStopReason ws w.junkReason w.junkInfo).reason } w.regWorld h).1
  rcases hrr : ({ p with state := (mkStopReason ws w.junkReason w.junkInfo).reason
      : process }.read_all_registers w.regWorld) with ⟨q, r⟩
  rw [hrr] at h5 hok
  dsimp only at h5 hok ⊢
  split
  · cases r with
    | error e =>
        dsimp only
        refine ⟨h5.1, h5.2.2.1, h5.2.2.2.1, h5.2.2.2.2, h5.2.1, by simp, ?_⟩
        intro h
        cases hok h
    | ok u =>
        dsimp only
        split
        · exact ⟨h5.1, h5.2.2.1, h5.2.2.2.1, h5.2.2.2.2, h5.2.1, by simp, fun _ => rfl⟩
        · exact ⟨h5.1, h5.2.2.1, h5.2.2.2.1, h5.2.2.2.2, h5.2.1, by simp, fun _ => rfl⟩
  · exact ⟨rfl, rfl, rfl, rfl, rfl, by simp, fun _ => rfl⟩

/-! ## Helper lemmas about the site table -/

theorem contains_address_cons (s : breakpoint_site) (rest : List breakpoint_site) (a : Nat) :
    contains_address (s :: rest) a = (s.address == a || contains_address rest a) := rfl

theorem enabled_stoppoint_cons (s : breakpoint_site) (rest : List breakpoint_site) (a : Nat) :
    enabled_stoppoint_at_address (s :: rest) a =
      ((s.address == a && s.isEnabled) || enabled_stoppoint_at_address rest a) := rfl

theorem enabled_imp_contains (l : List breakpoint_site) (a : Nat)
    (h : enabled_stoppoint_at_address l a = true) : contains_address l a = true := by
  unfold enabled_stoppoint_at_address at h
  unfold contains_address
  simp only [List.any_eq_true, Bool.and_eq_true] at h ⊢
  obtain ⟨s, hs, h1, _⟩ := h
  exact ⟨s, hs, h1⟩

theorem disable_preserves_address (s : breakpoint_site) (m : Mem) :
    (s.disable m).1.address = s.address := by
  unfold breakpoint_site.disable; split <;> rfl

/-- Enabling leaves the address unchanged and the site enabled. -/
theorem enable_spec (s : breakpoint_site) (m : Mem) :
    (s.enable m).1.address = s.address ∧ (s.enable m).1.isEnabled = true := by
  unfold breakpoint_site.enable
  split
  · next h => exact ⟨rfl, h⟩
  · exact ⟨rfl, rfl⟩

theorem disable_at_map_address (l : List breakpoint_site) (m : Mem) (a : Nat) :
    (disable_at l m a).1.map breakpoint_site.address = l.map breakpoint_site.address := by
  induction l generalizing m with
  | nil => rfl
  | cons s rest ih =>
      unfold disable_at
      split
      · simp [disable_preserves_address]
      · simp [ih m]

theorem contains_address_eq_map (l : List breakpoint_site) (a : Nat) :
    contains_address l a = (l.map breakpoint_site.address).any (fun x => x == a) := by
  induction l with
  | nil => rfl
  | cons s rest ih => rw [contains_address_cons, List.map_cons, List.any_cons, ih]

/-- Membership `contains_address` survives `disable_at` (disabling flips a flag, never
removes a site). -/
theorem contains_after_disable_at (l : List breakpoint_site) (m : Mem) (a b : Nat) :
    contains_address (disable_at l m a).1 b = contains_address l b := by
  rw [contains_address_eq_map, contains_address_eq_map, disable_at_map_address]

/-- Enabling the site at a present address makes
`enabled_stoppoint_at_address` true there. -/
theorem enable_at_enables (l : List breakpoint_site) (m : Mem) (a : Nat)
    (h : contains_address l a = true) :
    enabled_stoppoint_at_address (enable_at l m a).1 a = true := by
  induction l generalizing m with
  | nil => simp [contains_address] at h
  | cons s rest ih =>
      unfold enable_at
      by_cases hs : s.address = a
      · rw [if_pos hs, enabled_stoppoint_cons, Bool.or_eq_true]
        left
        have he := enable_spec s m
        rw [Bool.and_eq_true, beq_iff_eq, he.1, he.2]
        exact ⟨hs, rfl⟩
      · rw [if_neg hs, enabled_stoppoint_cons, Bool.or_eq_true]
        right
        have h' : contains_address rest a = true := by
          rw [contains_address_cons, Bool.or_eq_true, beq_iff_eq] at h
          rcases h with h | h
          · exact absurd h hs
          · exact h
        exact ih m h'

/-- Writing `set_pc` sets exactly the requested program counter. -/
theorem get_pc_set_pc (p : process) (v : Nat) : (p.set_pc v).get_pc = v := rfl

/-- The duplicate-site message is classified as `duplicate_breakpoint` for
every address. -/
theorem errorKind_duplicate (a : Nat) :
    errorKind (.send (duplicate_breakpoint_msg a)) = .duplicate_breakpoint := by
  have hpre : ("Breakpoint site already created").data.isPrefixOf
      (duplicate_breakpoint_msg a).data = true := by
    unfold duplicate_breakpoint_msg
    rw [String.data_append]
    refine List.isPrefixOf_iff_prefix.mpr ⟨" at address ".data ++ (toString a).data, ?_⟩
    rw [← List.append_assoc]
    have hc : ("Breakpoint site already created".data ++ " at address ".data : List Char)
        = "Breakpoint site already created at address ".data := by decide
    rw [hc]
  unfold errorKind
  dsimp only
  rw [if_pos hpre]

/-! ## Claim theorems -/

/-- C6: for every wait-status code, the constructed stop reason is `exited`
with the exit code when the status encodes a normal exit, `terminated` with
the terminating signal number when it encodes a signal death, and `stopped`
with the stopping signal number when it encodes a stop (whatever the
indeterminate initial field contents `r0`, `i0`). -/
theorem c6_stop_reason_decodes_wait_status (ws : Nat) (r0 : process_state) (i0 : Nat) :
    (WIFEXITED ws = true → mkStopReason ws r0 i0 = ⟨.exited, WEXITSTATUS ws⟩) ∧
    (WIFSIGNALED ws = true → mkStopReason ws r0 i0 = ⟨.terminated, WTERMSIG ws⟩) ∧
    (WIFSTOPPED ws = true → mkStopReason ws r0 i0 = ⟨.stopped, WSTOPSIG ws⟩) :=
  ⟨mkStopReason_exited ws r0 i0, mkStopReason_signaled ws r0 i0, mkStopReason_stopped ws r0 i0⟩

/-- Witness for C6 at the statuses 5888 = 0x1700 (exit code 23), 9 (killed
by SIGKILL) and 4991 = 0x137f (stopped by SIGSTOP). -/
theorem c6_stop_reason_decodes_wait_status_witness :
    (WIFEXITED 5888 = true ∧ mkStopReason 5888 .running 3 = ⟨.exited, 23⟩) ∧
    (WIFSIGNALED 9 = true ∧ mkStopReason 9 .running 3 = ⟨.terminated, 9⟩) ∧
    (WIFSTOPPED 4991 = true ∧ mkStopReason 4991 .running 3 = ⟨.stopped, 19⟩) :=
  ⟨⟨by decide, (c6_stop_reason_decodes_wait_status 5888 .running 3).1 (by decide)⟩,
   ⟨by decide, (c6_stop_reason_decodes_wait_status 9 .running 3).2.1 (by decide)⟩,
   ⟨by decide, (c6_stop_reason_decodes_wait_status 4991 .running 3).2.2 (by decide)⟩⟩

/-- C9: for a wait status encoding none of exit, signal death or stop (such
as the continue notification 0xffff), the `stop_reason` constructor assigns
neither field — the result carries the indeterminate initial contents — and
`wait_on_signal` copies that indeterminate reason into the process state. -/
theorem c9_indeterminate_stop_reason (ws : Nat) (r0 : process_state) (i0 : Nat)
    (p : process) (w : WaitWorld)
    (h1 : WIFEXITED ws = false) (h2 : WIFSIGNALED ws = false) (h3 : WIFSTOPPED ws = false)
    (hw : w.waitRes = some ws) (hj1 : w.junkReason = r0) (hj2 : w.junkInfo = i0) :
    mkStopReason ws r0 i0 = ⟨r0, i0⟩ ∧ (p.wait_on_signal w).proc.state = r0 := by
  refine ⟨mkStopReason_none ws r0 i0 h1 h2 h3, ?_⟩
  have hs := (wait_on_signal_spec p w ws hw).2.2.2.2.1
  rw [hs, hj1, hj2, mkStopReason_none ws r0 i0 h1 h2 h3]

/-- Witness for C9 at the continued status 0xffff = 65535, with junk reason
`running` and junk info 7. -/
theorem c9_indeterminate_stop_reason_witness :
    mkStopReason 65535 .running 7 = ⟨.running, 7⟩ ∧
    (sampleProc.wait_on_signal ⟨some 65535, sampleRegWorld, .running, 7⟩).proc.state = .running :=
  c9_indeterminate_stop_reason 65535 .running 7 sampleProc
    ⟨some 65535, sampleRegWorld, .running, 7⟩
    (by decide) (by decide) (by decide) rfl rfl rfl

/-- C8: `attach(0)` fails with the invalid-pid error before any ptrace call
is issued (the event list is empty) and no process is constructed. -/
theorem c8_attach_zero_invalid_pid (w : AttachWorld) :
    process.attach 0 w = ([], .error (.send "Invalid PID")) ∧
    errorKind (.send "Invalid PID") = .invalid_pid :=
  ⟨rfl, by decide⟩

/-- C7: `create_breakpoint_site` on an address already present fails with
the duplicate-breakpoint error and leaves the process (and so its table)
unchanged; on an absent address it appends a fresh disabled site with that
address and the next id, and returns it. -/
theorem c7_create_breakpoint_site (p : process) (a : Nat) :
    (contains_address p.sites a = true →
      (p.create_breakpoint_site a).1 = p ∧
      (p.create_breakpoint_site a).2 = .error (.send (duplicate_breakpoint_msg a)) ∧
      errorKind (.send (duplicate_breakpoint_msg a)) = .duplicate_breakpoint) ∧
    (contains_address p.sites a = false →
      (p.create_breakpoint_site a).1.sites = p.sites ++ [⟨p.nextId, a, false, 0⟩] ∧
      (p.create_breakpoint_site a).1.nextId = p.nextId + 1 ∧
      (p.create_breakpoint_site a).2 = .ok ⟨p.nextId, a, false, 0⟩) := by
  constructor
  · intro h
    unfold process.create_breakpoint_site
    rw [if_pos h]
    exact ⟨rfl, rfl, errorKind_duplicate a⟩
  · intro h
    unfold process.create_breakpoint_site
    rw [if_neg (by simp [h])]
    exact ⟨rfl, rfl, rfl⟩

/-- Witness for C7: duplicate insertion at the present address 99 of
`sampleProc`, and fresh insertion at the absent address 55. -/
theorem c7_create_breakpoint_site_witness :
    (contains_address sampleProc.sites 99 = true ∧
      (sampleProc.create_breakpoint_site 99).1 = sampleProc ∧
      (sampleProc.create_breakpoint_site 99).2 =
        .error (.send (duplicate_breakpoint_msg 99))) ∧
    (contains_address sampleProc.sites 55 = false ∧
      (sampleProc.create_breakpoint_site 55).1.sites =
        sampleProc.sites ++ [⟨sampleProc.nextId, 55, false, 0⟩] ∧
      (sampleProc.create_breakpoint_site 55).2 = .ok ⟨sampleProc.nextId, 55, false, 0⟩) :=
  ⟨⟨by decide, ((c7_create_breakpoint_site sampleProc 99).1 (by decide)).1,
    ((c7_create_breakpoint_site sampleProc 99).1 (by decide)).2.1⟩,
   ⟨by decide, ((c7_create_breakpoint_site sampleProc 55).2 (by decide)).1,
    ((c7_create_breakpoint_site sampleProc 55).2 (by decide)).2.2⟩⟩

/-- A process that does not own the inferior lifetime never sends SIGKILL on
destruction. -/
theorem destroy_no_sigkill (p : process) (h : p.terminate_on_end = false) :
    Event.killSig p.pid SIGKILL ∉ p.destroy := by
  unfold process.destroy
  rw [h]
  split
  · split
    · split <;> simp [SIGSTOP, SIGCONT, SIGKILL]
    · simp
  · simp

/-- A successful `attach` returns the process produced by the initial
`wait_on_signal` on a freshly constructed process, whose
`terminate_on_end` is false. -/
theorem attach_ok_terminate_on_end (pid : Nat) (w : AttachWorld) (evs : List Event)
    (pr : process) (hattach : process.attach pid w = (evs, .ok pr)) :
    pr.terminate_on_end = false := by
  unfold process.attach at hattach
  by_cases hp0 : pid = 0
  · rw [if_pos hp0] at hattach
    exact Except.noConfusion (congrArg Prod.snd hattach)
  · rw [if_neg hp0] at hattach
    cases hao : w.attachOk with
    | false =>
        rw [hao] at hattach
        exact Except.noConfusion (congrArg Prod.snd hattach)
    | true =>
        rw [hao] at hattach
        simp only [Bool.not_true, Bool.false_eq_true, if_false] at hattach
        have hsnd := congrArg Prod.snd hattach
        dsimp only at hsnd
        cases hres : ((attach_initial pid w).wait_on_signal w.waitW).res with
        | error e =>
            rw [hres] at hsnd
            exact Except.noConfusion hsnd
        | ok r =>
            rw [hres] at hsnd
            dsimp only at hsnd
            injection hsnd with hh
            cases hwres : w.waitW.waitRes with
            | none =>
                have hn := (wait_on_signal_none (attach_initial pid w) w.waitW hwres).1
                rw [hn] at hres
                exact Except.noConfusion hres
            | some ws =>
                have ht := (wait_on_signal_spec (attach_initial pid w) w.waitW ws hwres).2.2.1
                rw [← hh, ht]
                rfl

/-- C5: destroying a process with a nonzero pid issues, in order: when
attached, SIGSTOP and a reap only if the state is running, then the detach,
then SIGCONT; after that, SIGKILL and a reap only if `terminate_on_end`.
Since `attach` constructs the process with `terminate_on_end = false` (and
the initial wait preserves the flag), destroying an attached-only process
never sends SIGKILL. -/
theorem c5_destructor_order_and_attach_never_kills (p pr : process) (pid : Nat)
    (w : AttachWorld) (evs : List Event)
    (hpid : p.pid ≠ 0) (hat : p.is_attached = true)
    (hattach : process.attach pid w = (evs, .ok pr)) :
    p.destroy =
      ((if p.state = .running then [Event.killSig p.pid SIGSTOP, Event.waitpidCall] else [])
        ++ [Event.ptraceDetach p.pid, Event.killSig p.pid SIGCONT]
        ++ (if p.terminate_on_end then [Event.killSig p.pid SIGKILL, Event.waitpidCall]
            else [])) ∧
    pr.terminate_on_end = false ∧
    Event.killSig pr.pid SIGKILL ∉ pr.destroy := by
  have htoe := attach_ok_terminate_on_end pid w evs pr hattach
  refine ⟨?_, htoe, destroy_no_sigkill pr htoe⟩
  unfold process.destroy
  rw [if_pos hpid, hat]
  simp

/-- Witness for C5: destroying a running attached-only process with pid 42,
and a concrete successful attach to pid 7. -/
theorem c5_destructor_order_and_attach_never_kills_witness :
    (⟨42, false, true, .running, sampleBank, [], 1⟩ : process).destroy =
      [Event.killSig 42 SIGSTOP, Event.waitpidCall, Event.ptraceDetach 42,
       Event.killSig 42 SIGCONT] ∧
    (⟨7, false, true, .stopped, sampleKernelBank, [], 1⟩ : process).terminate_on_end = false ∧
    Event.killSig 7 SIGKILL ∉
      (⟨7, false, true, .stopped, sampleKernelBank, [], 1⟩ : process).destroy :=
  c5_destructor_order_and_attach_never_kills
    ⟨42, false, true, .running, sampleBank, [], 1⟩
    ⟨7, false, true, .stopped, sampleKernelBank, [], 1⟩
    7 ⟨true, .stopped, sampleBank, 1, ⟨some 4991, sampleRegWorld, .running, 9⟩⟩
    [Event.ptraceAttach 7, Event.waitpidCall, Event.refreshRegs]
    (by decide) (by decide) rfl

/-- C3 counterexample: on a process whose inferior has exited, with the
realistic world in which `PTRACE_CONT` fails (ESRCH), `resume` raises the
ptrace resume failure, whose kind is `resume_failed` — not `not_stopped` as
the claim states; the source contains no state check in `resume`. -/
theorem c3_resume_not_stopped_counterexample :
    (exitedProc.resume mem0 ⟨true, some 0, false⟩).res =
      .error (.send_errno "Could not resume") ∧
    errorKind (.send_errno "Could not resume") = .resume_failed ∧
    ErrorKind.resume_failed ≠ ErrorKind.not_stopped :=
  ⟨rfl, by decide, by decide⟩

/-- C3 (amended): `resume` performs no state-precondition check; for every
process — in particular one whose state is not `stopped`, such as an exited
inferior — in a world where `PTRACE_CONT` fails (the kernel's response once
the inferior is gone) and no enabled site sits at the program counter,
`resume` fails with the errno-carrying "Could not resume" error, of kind
`resume_failed` rather than `not_stopped`, and leaves the state unchanged
(in particular it is not set to `running`). -/
theorem c3_resume_error_not_running (p : process) (m : Mem) (w : ResumeWorld)
    (_hns : p.state ≠ .stopped)
    (hbp : enabled_stoppoint_at_address p.sites p.get_pc = false)
    (hc : w.contOk = false) :
    (p.resume m w).res = .error (.send_errno "Could not resume") ∧
    errorKind (.send_errno "Could not resume") = .resume_failed ∧
    (p.resume m w).proc.state = p.state := by
  unfold process.resume
  simp only [hbp, Bool.false_eq_true, if_false, hc, Bool.not_false, if_true]
  exact ⟨trivial, by decide, trivial⟩

/-- Witness for C3's amended theorem at the exited process. -/
theorem c3_resume_error_not_running_witness :
    (exitedProc.resume mem0 ⟨true, some 0, false⟩).res =
      .error (.send_errno "Could not resume") ∧
    errorKind (.send_errno "Could not resume") = .resume_failed ∧
    (exitedProc.resume mem0 ⟨true, some 0, false⟩).proc.state = exitedProc.state :=
  c3_resume_error_not_running exitedProc mem0 ⟨true, some 0, false⟩
    (by decide) (by decide) rfl

/-- C4: when the child side of `launch` fails (stdout redirection, trace-me
request, or exec), it writes a nonempty message to the pipe and exits
nonzero, and the parent — on reading the nonempty pipe content — reaps the
child and raises an error carrying exactly that message, returning no
process; empty pipe content (EOF from the close-on-exec pipe) is treated as
success and a process is constructed. -/
theorem c4_launch_child_failure (path : String) (debug : Bool)
    (repl : Option Nat) (w : LaunchWorld) (msg : String) (code : Nat)
    (hfork : w.forkOk = true) :
    (child_side debug repl w.child = .failed msg code →
      code ≠ 0 ∧ 0 < msg.length ∧
      process.launch path debug repl w =
        ([.forkCall, .waitpidCall], .error (.send msg))) ∧
    (child_side debug repl w.child = .execed → debug = false →
      process.launch path debug repl w = ([.forkCall], .ok (launch_initial debug w))) ∧
    (child_side debug repl w.child = .execed → debug = true →
      ∀ r, ((launch_initial debug w).wait_on_signal w.waitW).res = .ok r →
        (process.launch path debug repl w).2 =
          .ok ((launch_initial debug w).wait_on_signal w.waitW).proc) := by
  refine ⟨?_, ?_, ?_⟩
  · intro h
    have hmc : code = 255 ∧ 0 < msg.length := by
      unfold child_side at h
      split at h
      · injection h with h1 h2
        refine ⟨h2.symm, ?_⟩
        rw [← h1, String.length_append]
        have : (0 : Nat) < ("stdout replacement failed: " : String).length := by decide
        omega
      · split at h
        · injection h with h1 h2
          refine ⟨h2.symm, ?_⟩
          rw [← h1, String.length_append]
          have : (0 : Nat) < ("Tracing failed: " : String).length := by decide
          omega
        · split at h
          · injection h with h1 h2
            refine ⟨h2.symm, ?_⟩
            rw [← h1, String.length_append]
            have : (0 : Nat) < ("exec failed: " : String).length := by decide
            omega
          · exact child_outcome.noConfusion h
    refine ⟨by omega, hmc.2, ?_⟩
    unfold process.launch
    rw [hfork, h]
    simp only [Bool.not_true, Bool.false_eq_true, if_false]
    rw [if_pos hmc.2]
  · intro h hdebug
    subst hdebug
    unfold process.launch
    rw [hfork, h]
    simp
  · intro h hdebug r hr
    subst hdebug
    unfold process.launch
    rw [hfork, h]
    simp only [Bool.not_true, Bool.false_eq_true, if_false]
    rw [if_neg (by decide : ¬(("" : String).length > 0)), if_pos (trivial : True)]
    dsimp only
    rw [hr]

/-- Witness for C4: a concrete exec failure (errno text "No such file or
directory") and a concrete non-debug success. -/
theorem c4_launch_child_failure_witness :
    ((255 : Nat) ≠ 0 ∧
      0 < ("exec failed: No such file or directory" : String).length ∧
      process.launch "targets/nothing" true none
        ⟨true, 77, ⟨true, true, false, "", "", "No such file or directory"⟩,
         .stopped, sampleBank, 1, ⟨some 4991, sampleRegWorld, .running, 9⟩⟩ =
        ([.forkCall, .waitpidCall],
         .error (.send "exec failed: No such file or directory"))) ∧
    process.launch "targets/yes" false none
        ⟨true, 77, ⟨true, true, true, "", "", ""⟩,
         .stopped, sampleBank, 1, ⟨some 4991, sampleRegWorld, .running, 9⟩⟩ =
      ([.forkCall], .ok ⟨77, true, false, .stopped, sampleBank, [], 1⟩) :=
  ⟨(c4_launch_child_failure "targets/nothing" true none
      ⟨true, 77, ⟨true, true, false, "", "", "No such file or directory"⟩,
       .stopped, sampleBank, 1, ⟨some 4991, sampleRegWorld, .running, 9⟩⟩
      "exec failed: No such file or directory" 255 rfl).1 rfl,
   (c4_launch_child_failure "targets/yes" false none
      ⟨true, 77, ⟨true, true, true, "", "", ""⟩,
       .stopped, sampleBank, 1, ⟨some 4991, sampleRegWorld, .running, 9⟩⟩
      "" 0 rfl).2.1 rfl rfl⟩

/-- C2: on an attached process, when `waitpid` reports a stop and the
register refresh succeeds, `wait_on_signal` rewinds the program counter to
`pc − 1` (u64 decrement of the rip read from the kernel) exactly when the
stop signal is SIGTRAP and an enabled breakpoint site sits at `pc − 1`; in
every other stop case the program counter stays as read from the kernel. -/
theorem c2_sigtrap_rewinds_pc (p : process) (w : WaitWorld) (ws : Nat)
    (hat : p.is_attached = true)
    (hw : w.waitRes = some ws)
    (hstop : WIFSTOPPED ws = true)
    (hregs : regsAllOk w.regWorld) :
    (WSTOPSIG ws = SIGTRAP →
      enabled_stoppoint_at_address p.sites (u64_dec w.regWorld.kernel.regs.rip) = true →
      (p.wait_on_signal w).proc.get_pc = u64_dec w.regWorld.kernel.regs.rip) ∧
    ((WSTOPSIG ws ≠ SIGTRAP ∨
        enabled_stoppoint_at_address p.sites (u64_dec w.regWorld.kernel.regs.rip) = false) →
      (p.wait_on_signal w).proc.get_pc = w.regWorld.kernel.regs.rip) := by
  have hreason : mkStopReason ws w.junkReason w.junkInfo = ⟨.stopped, WSTOPSIG ws⟩ :=
    mkStopReason_stopped ws _ _ hstop
  unfold process.wait_on_signal
  rw [hw]
  simp only [hreason]
  rw [if_pos (⟨hat, trivial⟩ : p.is_attached = true ∧ True)]
  have h5 := read_all_registers_frame { p with state := process_state.stopped } w.regWorld
  have hok := read_all_registers_ok { p with state := process_state.stopped } w.regWorld hregs
  rcases hrr : ({ p with state := process_state.stopped }
      : process).read_all_registers w.regWorld with ⟨q, r⟩
  rw [hrr] at h5 hok
  dsimp only at h5 hok ⊢
  rw [hok.1]
  dsimp only
  have hq_pc : q.get_pc = w.regWorld.kernel.regs.rip := by
    unfold process.get_pc
    rw [hok.2]
  have hq_sites : q.sites = p.sites := h5.1
  constructor
  · intro hsig hen
    have hcond : WSTOPSIG ws = SIGTRAP ∧
        enabled_stoppoint_at_address q.sites (u64_dec q.get_pc) = true := by
      rw [hq_sites, hq_pc]
      exact ⟨hsig, hen⟩
    rw [if_pos hcond]
    dsimp only
    rw [get_pc_set_pc, hq_pc]
  · intro hother
    have hncond : ¬(WSTOPSIG ws = SIGTRAP ∧
        enabled_stoppoint_at_address q.sites (u64_dec q.get_pc) = true) := by
      rintro ⟨hc1, hc2⟩
      rw [hq_sites, hq_pc] at hc2
      rcases hother with h1 | h2
      · exact h1 hc1
      · rw [h2] at hc2
        exact Bool.noConfusion hc2
    rw [if_neg hncond]
    exact hq_pc

/-- Witness for C2: a SIGTRAP stop whose `pc − 1 = 99` has the enabled
sample site (rewound to 99), and a SIGSTOP stop (left at the kernel's
rip 100). -/
theorem c2_sigtrap_rewinds_pc_witness :
    (sampleProc.wait_on_signal ⟨some 1407, sampleRegWorld, .running, 9⟩).proc.get_pc = 99 ∧
    (sampleProc.wait_on_signal ⟨some 4991, sampleRegWorld, .running, 9⟩).proc.get_pc = 100 :=
  ⟨(c2_sigtrap_rewinds_pc sampleProc ⟨some 1407, sampleRegWorld, .running, 9⟩ 1407
      rfl rfl (by decide) (by decide)).1 (by decide) (by decide),
   (c2_sigtrap_rewinds_pc sampleProc ⟨some 4991, sampleRegWorld, .running, 9⟩ 4991
      rfl rfl (by decide) (by decide)).2 (Or.inl (by decide))⟩

/-- C1: when the program counter sits at an enabled breakpoint site, both
`resume` and `step_instruction` perform the step-over in order — disable
the site, single-step, wait, re-enable (then `resume` issues the CONT) —
so that after a successful operation the site is enabled again. -/
theorem c1_step_over_preserves_enabled_site (p : process) (m : Mem)
    (w : ResumeWorld) (sw : StepWorld) (ws ws2 : Nat)
    (hbp : enabled_stoppoint_at_address p.sites p.get_pc = true)
    (hss : w.singlestepOk = true) (hsw : w.stepWait = some ws) (hc : w.contOk = true)
    (hss2 : sw.singlestepOk = true) (hw2 : sw.waitW.waitRes = some ws2)
    (hregs2 : regsAllOk sw.waitW.regWorld) :
    ((p.resume m w).res = .ok () ∧
      enabled_stoppoint_at_address (p.resume m w).proc.sites p.get_pc = true ∧
      (p.resume m w).events =
        [.disableSite p.get_pc, .singleStep, .waitpidCall, .enableSite p.get_pc,
         .ptraceCont]) ∧
    ((p.step_instruction m sw).res =
        .ok (mkStopReason ws2 sw.waitW.junkReason sw.waitW.junkInfo) ∧
      enabled_stoppoint_at_address (p.step_instruction m sw).proc.sites p.get_pc = true ∧
      ∃ l, (p.step_instruction m sw).events =
          .disableSite p.get_pc :: .singleStep :: (l ++ [.enableSite p.get_pc]) ∧
        Event.waitpidCall ∈ l) := by
  have hcontains : contains_address (disable_at p.sites m p.get_pc).1 p.get_pc = true := by
    rw [contains_after_disable_at]
    exact enabled_imp_contains p.sites p.get_pc hbp
  constructor
  · unfold process.resume
    rw [if_pos hbp, hss, hsw, hc]
    simp only [Bool.not_true, Bool.false_eq_true, if_false]
    refine ⟨trivial, ?_, trivial⟩
    exact enable_at_enables (disable_at p.sites m p.get_pc).1 (disable_at p.sites m p.get_pc).2
      p.get_pc hcontains
  · unfold process.step_instruction
    rw [if_pos hbp, hss2]
    simp only [Bool.not_true, Bool.false_eq_true, if_false]
    have hspec := wait_on_signal_spec
      { p with sites := (disable_at p.sites m p.get_pc).1 } sw.waitW ws2 hw2
    have hres := hspec.2.2.2.2.2.2 hregs2
    rw [hres]
    dsimp only
    refine ⟨rfl, ?_, ?_⟩
    · refine enable_at_enables _ _ _ ?_
      rw [hspec.1]
      exact hcontains
    · refine ⟨(({ p with sites := (disable_at p.sites m p.get_pc).1 }
        : process).wait_on_signal sw.waitW).events, ?_, hspec.2.2.2.2.2.1⟩
      simp

/-- Witness for C1 at the sample process (pc 99 with an enabled site
there); the step's intermediate status 0 encodes a normal exit. -/
theorem c1_step_over_preserves_enabled_site_witness :
    (sampleProc.resume mem0 ⟨true, some 0, true⟩).res = .ok () ∧
    enabled_stoppoint_at_address
      (sampleProc.resume mem0 ⟨true, some 0, true⟩).proc.sites 99 = true ∧
    (sampleProc.resume mem0 ⟨true, some 0, true⟩).events =
      [.disableSite 99, .singleStep, .waitpidCall, .enableSite 99, .ptraceCont] ∧
    (sampleProc.step_instruction mem0
        ⟨true, ⟨some 0, sampleRegWorld, .running, 9⟩⟩).res = .ok ⟨.exited, 0⟩ ∧
    enabled_stoppoint_at_address
      (sampleProc.step_instruction mem0
        ⟨true, ⟨some 0, sampleRegWorld, .running, 9⟩⟩).proc.sites 99 = true ∧
    (sampleProc.step_instruction mem0
        ⟨true, ⟨some 0, sampleRegWorld, .running, 9⟩⟩).events =
      [.disableSite 99, .singleStep, .waitpidCall, .enableSite 99] :=
  have h := c1_step_over_preserves_enabled_site sampleProc mem0
    ⟨true, some 0, true⟩ ⟨true, ⟨some 0, sampleRegWorld, .running, 9⟩⟩ 0 0
    (by decide) rfl rfl rfl rfl rfl (by decide)
  ⟨h.1.1, h.1.2.1, h.1.2.2, h.2.1, h.2.2.1, by rfl⟩

/-- C10: the step-over in `resume` discards the intermediate `waitpid`
status: the entire result is the same whatever status was delivered; even
when that status encodes that the inferior exited during the single step,
`resume` does not decode it — it leaves the register mirror untouched,
re-enables the site, issues `PTRACE_CONT`, and (the CONT succeeding) sets
the state to `running` — whereas `step_instruction`, which waits through
`wait_on_signal`, decodes the same status and sets the state to `exited`. -/
theorem c10_resume_discards_intermediate_wait (p : process) (m : Mem)
    (ss co : Bool) (s1 s2 : Nat) (sw : StepWorld) (ws : Nat)
    (hbp : enabled_stoppoint_at_address p.sites p.get_pc = true)
    (hss : ss = true) (hco : co = true) (hex : WIFEXITED ws = true)
    (hss2 : sw.singlestepOk = true) (hw2 : sw.waitW.waitRes = some ws)
    (hregs2 : regsAllOk sw.waitW.regWorld) :
    (p.resume m ⟨ss, some s1, co⟩ = p.resume m ⟨ss, some s2, co⟩) ∧
    ((p.resume m ⟨ss, some ws, co⟩).proc.regs = p.regs ∧
      (p.resume m ⟨ss, some ws, co⟩).events =
        [.disableSite p.get_pc, .singleStep, .waitpidCall, .enableSite p.get_pc,
         .ptraceCont] ∧
      (p.resume m ⟨ss, some ws, co⟩).res = .ok () ∧
      (p.resume m ⟨ss, some ws, co⟩).proc.state = .running) ∧
    (p.step_instruction m sw).proc.state = .exited := by
  subst hss hco
  refine ⟨?_, ?_, ?_⟩
  · unfold process.resume
    dsimp only
  · unfold process.resume
    rw [if_pos hbp]
    simp
  · have hspec := wait_on_signal_spec
      { p with sites := (disable_at p.sites m p.get_pc).1 } sw.waitW ws hw2
    have hres := hspec.2.2.2.2.2.2 hregs2
    have hstate := hspec.2.2.2.2.1
    unfold process.step_instruction
    rw [if_pos hbp, hss2]
    simp only [Bool.not_true, Bool.false_eq_true, if_false]
    rw [hres]
    dsimp only
    rw [hstate, mkStopReason_exited ws _ _ hex]

/-- Witness for C10 at the sample process, with intermediate statuses 5 and
700 for the discard equation and the exit status 0 for the contrast. -/
theorem c10_resume_discards_intermediate_wait_witness :
    (sampleProc.resume mem0 ⟨true, some 5, true⟩ =
      sampleProc.resume mem0 ⟨true, some 700, true⟩) ∧
    ((sampleProc.resume mem0 ⟨true, some 0, true⟩).proc.regs = sampleProc.regs ∧
      (sampleProc.resume mem0 ⟨true, some 0, true⟩).events =
        [.disableSite 99, .singleStep, .waitpidCall, .enableSite 99, .ptraceCont] ∧
      (sampleProc.resume mem0 ⟨true, some 0, true⟩).res = .ok () ∧
      (sampleProc.resume mem0 ⟨true, some 0, true⟩).proc.state = .running) ∧
    (sampleProc.step_instruction mem0
      ⟨true, ⟨some 0, sampleRegWorld, .running, 9⟩⟩).proc.state = .exited :=
  c10_resume_discards_intermediate_wait sampleProc mem0 true true 5 700
    ⟨true, ⟨some 0, sampleRegWorld, .running, 9⟩⟩ 0
    (by decide) rfl rfl (by decide) rfl rfl (by decide)

end Sdb
